import Mathlib

/-!
Verification of the TDH agency intake assistant (tdh-agent).

This file shallowly embeds the parts of the repository that the checked
properties are about:

* the per-requirement material validators (`validate_material` in
  `tdh_agent.py` and `MaterialValidator` in `validators.py`),
* the applicant-information extractor (`extract_applicant_info`),
* the stage logic functions and the turn driver of the conditional-routing
  workflow in `tdh_agent.py` (`collect_basic_info`, `classify_role`,
  `collect_requirements`, `spotlight_check`, ..., `determine_next_node`,
  `execute_node`, `continue_conversation`),
* the session persistence round trip (`ConversationPersistence` in
  `persistence.py`).

Python strings are embedded as Lean `String`; the concrete regular
expressions used by the source are embedded as explicit scanning functions
over `List Char` that realise `re.search` (leftmost match, ordered
alternation, greedy quantifiers; every character class used by the source is
disjoint from its neighbouring literals, so maximal munch is exact).
The external LLM is an out-of-scope collaborator: every stage function that
calls it takes the generated reply text as an explicit `gen` argument, since
no control flow in the source depends on the reply's content.
-/

/-! ## String primitives (Python `str` operations) -/

/-- Python `s.lower()` (all inputs considered here are ASCII). -/
def strLower (s : String) : String :=
  String.mk (s.data.map Char.toLower)

/-- Anchored literal match: `listStartsWith pat l` holds when `pat` is a prefix of `l`
(`pat` is the pattern; anchored match of a literal). -/
def listStartsWith : List Char → List Char → Bool
  | [], _ => true
  | _ :: _, [] => false
  | p :: ps, c :: cs => p = c && listStartsWith ps cs

/-- Substring test `containsSub hay pat`: `pat` occurs as a contiguous substring of `hay`.
This is Python's `pat in hay`. -/
def containsSub (hay : List Char) (pat : List Char) : Bool :=
  listStartsWith pat hay ||
    match hay with
    | [] => false
    | _ :: t => containsSub t pat

/-- Python `pat in hay` on strings. -/
def strContains (hay pat : String) : Bool :=
  containsSub hay.data pat.data

/-- Python whitespace class `\s` = `[ \t\n\r\f\v]`. -/
def isSpaceCh (c : Char) : Bool :=
  c = ' ' || c = '\t' || c = '\n' || c = '\r' || c = '\x0b' || c = '\x0c'

def notSpace (c : Char) : Bool := !isSpaceCh c

/-- Model of `re.search` for a boolean position matcher: succeeds iff the matcher
succeeds at some position, scanning left to right. -/
def reSearch (atP : List Char → Bool) : List Char → Bool
  | [] => atP []
  | c :: t => atP (c :: t) || reSearch atP t

/-- Model of `re.search` returning the captured text of the leftmost match. -/
def reSearchO (atP : List Char → Option (List Char)) : List Char → Option (List Char)
  | [] => atP []
  | c :: t =>
    match atP (c :: t) with
    | some g => some g
    | none => reSearchO atP t

/-- Python `str.title()`: a letter is uppercased when it does not follow a
letter, lowercased otherwise. -/
def titleAux : List Char → Bool → List Char
  | [], _ => []
  | c :: t, prevAlpha =>
    (if c.isAlpha then (if prevAlpha then c.toLower else c.toUpper) else c)
      :: titleAux t c.isAlpha

def pyTitle (s : String) : String :=
  String.mk (titleAux s.data false)

/-- Python `s.replace("_", " ")` (single-character pattern, so a map). -/
def underscoresToSpaces (s : String) : String :=
  String.mk (s.data.map (fun c => if c = '_' then ' ' else c))

/-! ## Data model

`AgentState` in `tdh_agent.py`.  Conversation messages are `HumanMessage` /
`AIMessage`; `Msg.other` stands for any other message type (relevant only to
the persistence layer, which serializes such messages with tag `"unknown"`). -/

inductive Msg where
  | human (content : String)
  | ai (content : String)
  | other (content : String)
deriving DecidableEq, Repr

def isHumanMsg : Msg → Bool
  | .human _ => true
  | _ => false

def isAiMsg : Msg → Bool
  | .ai _ => true
  | _ => false

def msgContent : Msg → String
  | .human c => c
  | .ai c => c
  | .other c => c

/-- The `applicant_info` dictionary.  The source stores string values under
the fixed keys used below; `none` models an absent key.  Python truthiness of
a present value is emptiness of the string (see `truthy`). -/
structure ApplicantInfo where
  name : Option String := none
  email : Option String := none
  phone : Option String := none
  spotlight : Option String := none
  work_auth : Option String := none
  current_agency : Option String := none
  research_answers : Option String := none
deriving DecidableEq, Repr

/-- Python `"k" in info and info["k"]` (a present empty string is falsy). -/
def truthy : Option String → Bool
  | none => false
  | some s => !s.isEmpty

/-- Structure `AgentState` (a `TypedDict` in the source).  `requirements_collected` and
the other dictionaries are insertion-ordered association lists, matching
Python `dict` iteration order. -/
structure AgentState where
  messages : List Msg
  applicant_info : ApplicantInfo
  role_type : Option String
  current_stage : String
  requirements_collected : List (String × Bool)
  ready_for_submission : Bool
  has_spotlight : Option Bool
  has_representation : Option Bool
  work_preferences : List (String × Bool)
  materials_collected : List (String × String)
deriving DecidableEq, Repr

/-! ## Validators

`validate_material` in `tdh_agent.py` and `MaterialValidator` in
`validators.py`. -/

/-- Character class `[a-zA-Z0-9_-]`, the YouTube video-id character class. -/
def idChar (c : Char) : Bool :=
  c.isAlpha || c.isDigit || c = '_' || c = '-'

/-- Repetition `[a-zA-Z0-9_-]{11}` anchored at the head (the rest of the haystack is
ignored, as the pattern ends with the repetition). -/
def idMatch11 (l : List Char) : Bool :=
  decide (11 ≤ l.length) && (l.take 11).all idChar

/-- Pattern `(?:youtube\.com|youtu\.be)\/(?:watch\?v=)?([a-zA-Z0-9_-]{11})`
anchored at the head.  Ordered alternation with backtracking over the
optional `watch?v=`. -/
def ytCoreAt (l : List Char) : Bool :=
  if listStartsWith "youtube.com/".data l then
    let r := l.drop 12
    (listStartsWith "watch?v=".data r && idMatch11 (r.drop 8)) || idMatch11 r
  else if listStartsWith "youtu.be/".data l then
    let r := l.drop 9
    (listStartsWith "watch?v=".data r && idMatch11 (r.drop 8)) || idMatch11 r
  else false

/-- The optional scheme/`www.` prefixes `(?:https?:\/\/)?(?:www\.)?` in
front of an anchored matcher `core`: each alternative is tried in order and
the empty alternative is the final fallback. -/
def optSchemeWww (core : List Char → Bool) (l : List Char) : Bool :=
  let withWww : List Char → Bool := fun r =>
    (listStartsWith "www.".data r && core (r.drop 4)) || core r
  (listStartsWith "https://".data l && withWww (l.drop 8)) ||
  (listStartsWith "http://".data l && withWww (l.drop 7)) ||
  withWww l

/-- Position matcher of the `youtube_pattern` regex of `validate_material`. -/
def ytAt (l : List Char) : Bool :=
  optSchemeWww ytCoreAt l

/-- Pattern `vimeo\.com\/([0-9]+)` anchored at the head. -/
def vimeoCoreAt (l : List Char) : Bool :=
  listStartsWith "vimeo.com/".data l &&
    (match l.drop 10 with
     | c :: _ => c.isDigit
     | [] => false)

/-- Position matcher of the `vimeo_pattern` regex of `validate_material`. -/
def vimeoAt (l : List Char) : Bool :=
  optSchemeWww vimeoCoreAt l

/-- Embeds `validate_material(material_type, content)` from `tdh_agent.py`
(lines 92-113): CV branch checks document-format tokens in the lowercased
content; reel branch searches the YouTube/Vimeo regexes in the raw content;
anything else is rejected generically. -/
def validate_material (material_type : String) (content : String) : Bool × String :=
  if material_type = "cv" then
    if ["pdf", "word", ".doc", ".docx"].any (fun ext => strContains (strLower content) ext) then
      (true, "Great! Your CV in PDF/Word format is noted.")
    else
      (false, "Please note that your CV must be in PDF or Word format only. Do you have your CV in one of these formats?")
  else if ["dance_reel", "vocal_reel", "acting_reel", "movement_reel"].any
      (fun reel => strContains material_type reel) then
    let reel_name := pyTitle (underscoresToSpaces material_type)
    if reSearch ytAt content.data || reSearch vimeoAt content.data then
      (true, "Perfect! I've noted your " ++ reel_name ++ ".")
    else
      (false, "Please provide a direct YouTube or Vimeo link for your " ++ reel_name ++ ". Other platforms or downloadable files are not accepted.")
  else
    (false, "I couldn't validate this material. Please ensure it meets the requirements.")

/-- Position matcher of `validators.py`'s `vimeo\.com/\d+` pattern. -/
def vimeoNumAt (l : List Char) : Bool :=
  listStartsWith "vimeo.com/".data l &&
    (match l.drop 10 with
     | c :: _ => c.isDigit
     | [] => false)

def searchVimeoNum : List Char → Bool
  | [] => vimeoNumAt []
  | c :: t => vimeoNumAt (c :: t) || searchVimeoNum t

namespace MaterialValidator

/-- Embeds `MaterialValidator.validate_cv` from `validators.py` (lines 10-26). -/
def validate_cv (content : String) : Bool × String :=
  let content_lower := strLower content
  if ["pdf", "doc", "docx", "word", ".pdf", ".doc", ".docx"].any
      (fun format_type => strContains content_lower format_type) then
    (true, "CV format accepted")
  else if ["attachment", "attached", "file", "document", "resume", "cv"].any
      (fun keyword => strContains content_lower keyword) then
    (true, "CV submission noted")
  else
    (false, "CV must be in PDF or Word format")

/-- Embeds `MaterialValidator.validate_video_link` from `validators.py`
(lines 28-59).  All YouTube/Vimeo patterns except `vimeo\.com/\d+` are
literals, so their `re.search` is substring containment. -/
def validate_video_link (content : String) (material_type : String) : Bool × String :=
  let cl := strLower content
  if strContains cl "youtube.com/watch?v=" || strContains cl "youtu.be/" ||
      strContains cl "youtube.com/embed/" ||
      strContains cl "youtube.com" || strContains cl "youtu.be" then
    (true, material_type ++ " link accepted (YouTube)")
  else if searchVimeoNum cl.data || strContains cl "vimeo.com" then
    (true, material_type ++ " link accepted (Vimeo)")
  else if ["reel", "video", "demo", "showreel", "footage"].any
      (fun keyword => strContains cl keyword) then
    (false, "Please provide a direct YouTube or Vimeo link for your " ++ material_type)
  else
    (false, material_type ++ " must be a YouTube or Vimeo link")

end MaterialValidator

/-! ## Extractor

`extract_applicant_info` from `tdh_agent.py` (lines 44-90).  Each regex is
embedded as a position matcher returning the text captured by its group;
`reSearchO` scans for the leftmost match. -/

/-- Pattern `[A-Z][a-z]+` anchored at the head, returning the word and the rest.
Greedy `[a-z]+` is maximal munch ([a-z] is disjoint from `\s` and [A-Z],
which are the only things that can follow it in the name pattern). -/
def capWord (l : List Char) : Option (List Char × List Char) :=
  match l with
  | c :: t =>
    if c.isUpper then
      let low := t.takeWhile Char.isLower
      if low.isEmpty then none else some (c :: low, t.drop low.length)
    else none
  | [] => none

/-- The captured group `([A-Z][a-z]+\s+[A-Z][a-z]+)` anchored at the head. -/
def capName (l : List Char) : Option (List Char) :=
  match capWord l with
  | some (w1, r1) =>
    let sp := r1.takeWhile isSpaceCh
    if sp.isEmpty then none
    else
      match capWord (r1.drop sp.length) with
      | some (w2, _) => some (w1 ++ sp ++ w2)
      | none => none
  | none => none

/-- Pattern `\s*(?:is|:)?\s*` followed by an anchored matcher `core`: the optional
`is`/`:` alternatives are tried in order, falling back to the empty
alternative.  The leading `\s*` is maximal munch (space is disjoint from
`i`, `:` and everything `core` can start with in the source patterns).
The phone and spotlight patterns use `(?:\s*(?:is|:))?\s*`, which accepts
exactly the same strings, so this helper serves all three patterns. -/
def skipIsColonThen (core : List Char → Option (List Char)) (l : List Char) :
    Option (List Char) :=
  let l1 := l.dropWhile isSpaceCh
  if listStartsWith "is".data l1 then
    match core ((l1.drop 2).dropWhile isSpaceCh) with
    | some g => some g
    | none => core l1
  else if listStartsWith ":".data l1 then
    match core ((l1.drop 1).dropWhile isSpaceCh) with
    | some g => some g
    | none => core l1
  else core l1

/-- Position matcher of the first name pattern
`(?:my|full)?\s*name\s*(?:is|:)?\s*([A-Z][a-z]+\s+[A-Z][a-z]+)`. -/
def nameP1At (l : List Char) : Option (List Char) :=
  let core : List Char → Option (List Char) := fun r =>
    let r1 := r.dropWhile isSpaceCh
    if listStartsWith "name".data r1 then skipIsColonThen capName (r1.drop 4)
    else none
  if listStartsWith "my".data l then
    match core (l.drop 2) with
    | some g => some g
    | none => core l
  else if listStartsWith "full".data l then
    match core (l.drop 4) with
    | some g => some g
    | none => core l
  else core l

/-- Position matcher of the second name pattern
`I(?:'m| am)\s+([A-Z][a-z]+\s+[A-Z][a-z]+)`. -/
def nameP2At (l : List Char) : Option (List Char) :=
  match l with
  | 'I' :: r =>
    let after : List Char → Option (List Char) := fun r2 =>
      let sp := r2.takeWhile isSpaceCh
      if sp.isEmpty then none else capName (r2.drop sp.length)
    if listStartsWith "'m".data r then after (r.drop 2)
    else if listStartsWith " am".data r then after (r.drop 3)
    else none
  | _ => none

/-- Character class `[a-zA-Z0-9._%+-]`, the email local-part class. -/
def localChar (c : Char) : Bool :=
  c.isAlpha || c.isDigit || c = '.' || c = '_' || c = '%' || c = '+' || c = '-'

/-- Character class `[a-zA-Z0-9.-]`, the email domain class. -/
def domChar (c : Char) : Bool :=
  c.isAlpha || c.isDigit || c = '.' || c = '-'

/-- Greedy split of the maximal domain-class run after the `@`:
`[a-zA-Z0-9.-]+\.[a-zA-Z]{2,}` backtracks from the longest domain prefix, so
the successful split is at the largest index `k` with `run[k] = '.'`
followed by at least two letters. -/
def emailDomMatch (run : List Char) : Option (List Char) :=
  let ks := (List.range run.length).filter (fun k =>
    decide (0 < k) && decide ((run.drop k).take 1 = ['.']) &&
      decide (2 ≤ ((run.drop (k + 1)).takeWhile Char.isAlpha).length))
  match ks.getLast? with
  | some k => some (run.take k ++ '.' :: (run.drop (k + 1)).takeWhile Char.isAlpha)
  | none => none

/-- Position matcher of the email pattern
`[a-zA-Z0-9._%+-]+@[a-zA-Z0-9.-]+\.[a-zA-Z]{2,}` (group 0).  The local part
is maximal munch: a shorter local run would leave a local-class character
where `@` is required. -/
def emailAt (l : List Char) : Option (List Char) :=
  let loc := l.takeWhile localChar
  if loc.isEmpty then none
  else
    match l.drop loc.length with
    | '@' :: r =>
      let run := r.takeWhile domChar
      match emailDomMatch run with
      | some dm => some (loc ++ '@' :: dm)
      | none => none
    | _ => none

/-- Character class `[\d\s-]`, the phone tail class. -/
def phChar (c : Char) : Bool :=
  c.isDigit || isSpaceCh c || c = '-'

/-- The captured group `(\+?\d[\d\s-]{8,})` anchored at the head; `{8,}` is
greedy and last in the pattern, so it is the maximal run.  If `+` is present
but the rest fails, the empty alternative requires a digit at `+` and fails
too. -/
def phoneCore (l : List Char) : Option (List Char) :=
  let digitRun : List Char → Option (List Char) := fun r =>
    match r with
    | d :: t =>
      if d.isDigit then
        let run := t.takeWhile phChar
        if decide (8 ≤ run.length) then some (d :: run) else none
      else none
    | [] => none
  match l with
  | '+' :: r =>
    match digitRun r with
    | some g => some ('+' :: g)
    | none => none
  | _ => digitRun l

/-- Position matcher of the first phone pattern
`(?:phone|number|contact)(?:\s*(?:is|:))?\s*(\+?\d[\d\s-]{8,})`. -/
def phoneP1At (l : List Char) : Option (List Char) :=
  if listStartsWith "phone".data l then skipIsColonThen phoneCore (l.drop 5)
  else if listStartsWith "number".data l then skipIsColonThen phoneCore (l.drop 6)
  else if listStartsWith "contact".data l then skipIsColonThen phoneCore (l.drop 7)
  else none

/-- Position matcher of the second phone pattern `(\+?\d[\d\s-]{8,})`. -/
def phoneP2At (l : List Char) : Option (List Char) :=
  phoneCore l

/-- The captured group `(https?://(?:www\.)?spotlight\.com\S+)` anchored at
the head; `https?` tries the `s` first, `\S+` is the maximal non-space run. -/
def spotCore (l : List Char) : Option (List Char) :=
  let tail : List Char → Option (List Char) := fun r =>
    let core : List Char → Option (List Char) := fun r2 =>
      if listStartsWith "spotlight.com".data r2 then
        let run := (r2.drop 13).takeWhile notSpace
        if run.isEmpty then none else some ("spotlight.com".data ++ run)
      else none
    if listStartsWith "www.".data r then
      match core (r.drop 4) with
      | some g => some ("www.".data ++ g)
      | none => core r
    else core r
  if listStartsWith "https://".data l then
    match tail (l.drop 8) with
    | some g => some ("https://".data ++ g)
    | none => none
  else if listStartsWith "http://".data l then
    match tail (l.drop 7) with
    | some g => some ("http://".data ++ g)
    | none => none
  else none

/-- Position matcher of the spotlight pattern
`(?:spotlight|profile)(?:\s*(?:is|:))?\s*(https?://(?:www\.)?spotlight\.com\S+)`. -/
def spotAt (l : List Char) : Option (List Char) :=
  if listStartsWith "spotlight".data l then skipIsColonThen spotCore (l.drop 9)
  else if listStartsWith "profile".data l then skipIsColonThen spotCore (l.drop 7)
  else none

/-- Embeds `extract_applicant_info(message, current_info)`: first-write-wins field
extraction; a field is attempted only while absent or falsy, and an
unmatched pattern leaves the field untouched. -/
def extract_applicant_info (message : String) (current_info : ApplicantInfo) :
    ApplicantInfo :=
  let l := message.data
  let i1 :=
    if truthy current_info.name then current_info
    else
      match reSearchO nameP1At l with
      | some g => { current_info with name := some (String.mk g) }
      | none =>
        match reSearchO nameP2At l with
        | some g => { current_info with name := some (String.mk g) }
        | none => current_info
  let i2 :=
    if truthy i1.email then i1
    else
      match reSearchO emailAt l with
      | some g => { i1 with email := some (String.mk g) }
      | none => i1
  let i3 :=
    if truthy i2.phone then i2
    else
      match reSearchO phoneP1At l with
      | some g => { i2 with phone := some (String.mk g) }
      | none =>
        match reSearchO phoneP2At l with
        | some g => { i2 with phone := some (String.mk g) }
        | none => i2
  if truthy i3.spotlight then i3
  else
    match reSearchO spotAt l with
    | some g => { i3 with spotlight := some (String.mk g) }
    | none => i3

/-! ## Stage logic functions

The node functions of the conditional-routing workflow in `tdh_agent.py`.
Functions that call the LLM take the generated text as `gen`; the source
appends `AIMessage(content=str(response))` and no control flow inspects the
response (the `elif` in `collect_basic_info` that reads the response body is
a `pass`). -/

/-- Embeds `welcome_node` (lines 180-205). -/
def welcome_node (gen : String) (s : AgentState) : AgentState :=
  if s.messages.isEmpty then
    { s with
      messages := s.messages ++ [Msg.ai gen]
      current_stage := "basic_info"
      applicant_info := {}
      requirements_collected := []
      ready_for_submission := false }
  else s

/-- The role-mention phrases checked by `collect_basic_info`. -/
def rolePhrases : List String :=
  ["dancer", "singer", "actor", "perform", "dance", "sing", "act"]

/-- Embeds `collect_basic_info` (lines 207-278).  The stage advances to
`role_classification` only when name, email and phone are all truthy after
extraction *and* the user message mentions one of `rolePhrases`; the `elif`
branch that inspects the generated response is a `pass` and never changes
the stage.  The source indexes `messages[-1]`, which the driver guarantees
to exist; with no last message, or a non-human one, nothing happens. -/
def collect_basic_info (gen : String) (s : AgentState) : AgentState :=
  match s.messages.getLast? with
  | some (Msg.human content) =>
    let updated_info := extract_applicant_info content s.applicant_info
    let s1 := { s with
      applicant_info := updated_info
      messages := s.messages ++ [Msg.ai gen] }
    let user_message := strLower content
    let mentioned_role := rolePhrases.any (fun p => strContains user_message p)
    if truthy updated_info.name && truthy updated_info.email &&
        truthy updated_info.phone && mentioned_role then
      { s1 with current_stage := "role_classification" }
    else s1
  | _ => s

/-- Embeds `classify_role` (lines 280-372): keyword detection on the lowercased
last *human* message, in priority order `"dancer who sings"`, `"dancer"`,
then any of `"singer"/"actor"/"mover"`; a detected role initializes the
role-dependent requirement checklist and advances the stage. -/
def classify_role (gen : String) (s : AgentState) : AgentState :=
  match (s.messages.filter isHumanMsg).getLast? with
  | none => s
  | some m =>
    let user_message := strLower (msgContent m)
    let role_type : Option String :=
      if strContains user_message "dancer who sings" then some "Dancer Who Sings"
      else if strContains user_message "dancer" then some "Dancer"
      else if ["singer", "actor", "mover"].any
          (fun term => strContains user_message term) then some "Singer/Actor"
      else none
    let s1 :=
      match role_type with
      | some r =>
        { s with
          role_type := some r
          requirements_collected :=
            if r = "Dancer" || r = "Dancer Who Sings" then
              [("cv", false), ("dance_reel", false), ("vocal_reel", false),
               ("acting_reel", false)]
            else
              [("cv", false), ("vocal_reel", false), ("acting_reel", false),
               ("movement_reel", false)] }
      | none => s
    let s2 := { s1 with messages := s1.messages ++ [Msg.ai gen] }
    match role_type with
    | some _ => { s2 with current_stage := "explain_requirements" }
    | none => s2

/-- First key of the ordered checklist whose flag is still `false`
(the `for req, collected in requirements.items()` loops). -/
def firstUncollected (requirements : List (String × Bool)) : Option String :=
  match requirements.find? (fun rc => !rc.2) with
  | some rc => some rc.1
  | none => none

/-- Python `dict[key] = v` on an insertion-ordered dict whose keys are
unique: update in place. -/
def setReq (requirements : List (String × Bool)) (key : String) :
    List (String × Bool) :=
  requirements.map (fun rc => if rc.1 = key then (rc.1, true) else rc)

/-- Python `dict[key] = v`: overwrite in place if present, else append. -/
def setMaterial (materials : List (String × String)) (key val : String) :
    List (String × String) :=
  if materials.any (fun kv => kv.1 = key) then
    materials.map (fun kv => if kv.1 = key then (kv.1, val) else kv)
  else materials ++ [(key, val)]

/-- Embeds `collect_requirements` (lines 417-480). -/
def collect_requirements (s : AgentState) : AgentState :=
  match s.messages.getLast? with
  | some (Msg.human user_message) =>
    let requirements := s.requirements_collected
    match firstUncollected requirements with
    | some current_requirement =>
      let v := validate_material current_requirement user_message
      if v.1 then
        let reqs2 := setReq requirements current_requirement
        let s1 := { s with
          requirements_collected := reqs2
          materials_collected :=
            setMaterial s.materials_collected current_requirement user_message }
        match firstUncollected reqs2 with
        | some next_requirement =>
          let next_req_name := pyTitle (underscoresToSpaces next_requirement)
          let response_text :=
            if next_requirement = "cv" then
              v.2 ++ "\n\nNow, please provide your CV. Remember, it must be in PDF or Word format only."
            else if strContains next_requirement "reel" then
              v.2 ++ "\n\nNext, I need your " ++ next_req_name ++ ". Please provide a direct YouTube or Vimeo link."
            else
              v.2 ++ "\n\nNext, please provide your " ++ next_req_name ++ "."
          { s1 with messages := s1.messages ++ [Msg.ai response_text] }
        | none =>
          { s1 with
            current_stage := "research_questions"
            messages := s1.messages ++
              [Msg.ai (v.2 ++ "\n\nExcellent! You've provided all the required materials. Let me ask you a few final questions.")] }
      else
        { s with messages := s.messages ++ [Msg.ai v.2] }
    | none =>
      { s with
        current_stage := "research_questions"
        messages := s.messages ++
          [Msg.ai "You've already provided all the required materials. Let me ask you a few final questions."] }
  | _ => s

/-- Embeds `request_role_clarification` (lines 580-597): unconditionally generates
and appends a clarification prompt. -/
def request_role_clarification (gen : String) (s : AgentState) : AgentState :=
  { s with messages := s.messages ++ [Msg.ai gen] }

def dancerRequirementsText : String :=
  "For your application as a Dancer, you'll need to provide:\n\n1. CV (PDF or Word format only)\n2. Dance reel/self tape (YouTube/Vimeo link only) - Footage must show technique and varying styles. Solo studio footage is preferred.\n3. Vocal reel/self tape (YouTube/Vimeo link only) - 16 Bar minimum of any song choice that highlights your vocal tone and range.\n4. Acting reel/self tape (YouTube/Vimeo link only) - Short monologue or scene that shows your acting ability.\n\nOnly direct unlisted YouTube or Vimeo links are accepted. Applications with downloadable files (Dropbox, WeTransfer, etc.) will be deleted.\n\nLet's start by checking if you have a Spotlight profile."

/-- Embeds `dancer_requirements` (lines 599-615). -/
def dancer_requirements (s : AgentState) : AgentState :=
  { s with
    messages := s.messages ++ [Msg.ai dancerRequirementsText]
    current_stage := "spotlight_check" }

def dancerWhoSingsRequirementsText : String :=
  "For your application as a Dancer Who Sings, you'll need to provide:\n\n1. CV (PDF or Word format only)\n2. Dance reel/self tape (YouTube/Vimeo link only) - Footage must show technique and varying styles. Solo studio footage is preferred.\n3. Vocal reel/self tape (YouTube/Vimeo link only) - 16 Bar minimum of any song choice that highlights your vocal tone and range.\n4. Acting reel/self tape (YouTube/Vimeo link only) - Short monologue or scene that shows your acting ability.\n\nOnly direct unlisted YouTube or Vimeo links are accepted. Applications with downloadable files (Dropbox, WeTransfer, etc.) will be deleted.\n\nLet's start by checking if you have a Spotlight profile."

/-- Embeds `dancer_who_sings_requirements` (lines 617-633). -/
def dancer_who_sings_requirements (s : AgentState) : AgentState :=
  { s with
    messages := s.messages ++ [Msg.ai dancerWhoSingsRequirementsText]
    current_stage := "spotlight_check" }

def singerActorRequirementsText : String :=
  "For your application as a Singer/Actor, you'll need to provide:\n\n1. CV (PDF or Word format only)\n2. Vocal reel/self tape (YouTube/Vimeo link only) - 16 Bar minimum of any song choice that highlights your vocal tone and range. Multiple songs are advised.\n3. Acting reel/self tape (YouTube/Vimeo link only) - Short monologue or scene that shows your acting ability.\n4. Movement reel/footage (Optional) (YouTube/Vimeo link only)\n\nOnly direct unlisted YouTube or Vimeo links are accepted. Applications with downloadable files (Dropbox, WeTransfer, etc.) will be deleted.\n\nLet's start by checking if you have a Spotlight profile."

/-- Embeds `singer_actor_requirements` (lines 635-651). -/
def singer_actor_requirements (s : AgentState) : AgentState :=
  { s with
    messages := s.messages ++ [Msg.ai singerActorRequirementsText]
    current_stage := "spotlight_check" }

/-- Embeds `spotlight_check` (lines 653-673): the affirmative phrase list is tested
before the negative one, first matching branch wins. -/
def spotlight_check (s : AgentState) : AgentState :=
  match s.messages.getLast? with
  | some (Msg.human content) =>
    let user_message := strLower content
    if ["yes", "i have", "i do", "i'm on spotlight"].any
        (fun phrase => strContains user_message phrase) then
      { s with
        has_spotlight := some true
        messages := s.messages ++ [Msg.ai "Great! Please provide your Spotlight profile link."] }
    else if ["no", "i don't", "i don't have", "not on spotlight"].any
        (fun phrase => strContains user_message phrase) then
      { s with
        has_spotlight := some false
        messages := s.messages ++ [Msg.ai "No problem! Let's move on to checking your current representation status."] }
    else
      { s with messages := s.messages ++ [Msg.ai "I need to know if you have a Spotlight profile. Please answer yes or no."] }
  | _ => s

/-- Position matcher of the `collect_spotlight_link` regex
`(?:https?://)?(?:www\.)?(?:portal\.)?spotlight\.com\S*` (group 0, so the
matched optional prefixes are part of the result; `\S*` may be empty). -/
def spotLinkAt (l : List Char) : Option (List Char) :=
  let p4 : List Char → Option (List Char) := fun r =>
    if listStartsWith "spotlight.com".data r then
      some ("spotlight.com".data ++ (r.drop 13).takeWhile notSpace)
    else none
  let p3 : List Char → Option (List Char) := fun r =>
    if listStartsWith "portal.".data r then
      match p4 (r.drop 7) with
      | some g => some ("portal.".data ++ g)
      | none => p4 r
    else p4 r
  let p2 : List Char → Option (List Char) := fun r =>
    if listStartsWith "www.".data r then
      match p3 (r.drop 4) with
      | some g => some ("www.".data ++ g)
      | none => p3 r
    else p3 r
  if listStartsWith "https://".data l then
    match p2 (l.drop 8) with
    | some g => some ("https://".data ++ g)
    | none => p2 l
  else if listStartsWith "http://".data l then
    match p2 (l.drop 7) with
    | some g => some ("http://".data ++ g)
    | none => p2 l
  else p2 l

/-- Embeds `collect_spotlight_link` (lines 675-693). -/
def collect_spotlight_link (s : AgentState) : AgentState :=
  match s.messages.getLast? with
  | some (Msg.human content) =>
    match reSearchO spotLinkAt content.data with
    | some g =>
      { s with
        applicant_info := { s.applicant_info with spotlight := some (String.mk g) }
        messages := s.messages ++ [Msg.ai "Perfect! I've noted your Spotlight link. Now let's check your current representation status."] }
    | none =>
      { s with messages := s.messages ++ [Msg.ai "I couldn't find a valid Spotlight link. Please provide the direct URL to your Spotlight profile."] }
  | _ => s

/-- Embeds `representation_check` (lines 695-715): affirmative phrases first. -/
def representation_check (s : AgentState) : AgentState :=
  match s.messages.getLast? with
  | some (Msg.human content) =>
    let user_message := strLower content
    if ["yes", "i have", "i do", "i'm represented"].any
        (fun phrase => strContains user_message phrase) then
      { s with
        has_representation := some true
        messages := s.messages ++ [Msg.ai "I see you have current representation. Please tell me the agency name and what they represent you for."] }
    else if ["no", "i don't", "i don't have", "not represented"].any
        (fun phrase => strContains user_message phrase) then
      { s with
        has_representation := some false
        messages := s.messages ++ [Msg.ai "No problem! Let's move on to your work preferences."] }
    else
      { s with messages := s.messages ++ [Msg.ai "I need to know if you currently have representation. Please answer yes or no."] }
  | _ => s

/-- Embeds `collect_representation_details` (lines 717-728). -/
def collect_representation_details (s : AgentState) : AgentState :=
  match s.messages.getLast? with
  | some (Msg.human content) =>
    { s with
      applicant_info := { s.applicant_info with current_agency := some content }
      messages := s.messages ++ [Msg.ai "Thank you for that information. Now let's discuss your work preferences."] }
  | _ => s

/-- Embeds `work_preferences` (lines 730-749): unconditionally generates and
appends the work-preferences prompt; no state fields or stage change. -/
def work_preferences (gen : String) (s : AgentState) : AgentState :=
  { s with messages := s.messages ++ [Msg.ai gen] }

/-- Embeds `dancer_materials` (lines 751-773). -/
def dancer_materials (s : AgentState) : AgentState :=
  { s with
    requirements_collected :=
      [("cv", false), ("dance_reel", false), ("vocal_reel", false),
       ("acting_reel", false)]
    messages := s.messages ++
      [Msg.ai "Now let's collect your materials. I'll need:\n\n1. Your CV (PDF or Word format)\n2. Dance reel (YouTube/Vimeo link)\n3. Vocal reel (YouTube/Vimeo link) \n4. Acting reel (YouTube/Vimeo link)\n\nLet's start with your CV. Do you have it ready in PDF or Word format?"]
    current_stage := "collect_requirements" }

/-- Embeds `singer_actor_materials` (lines 775-797). -/
def singer_actor_materials (s : AgentState) : AgentState :=
  { s with
    requirements_collected :=
      [("cv", false), ("vocal_reel", false), ("acting_reel", false),
       ("movement_reel", false)]
    messages := s.messages ++
      [Msg.ai "Now let's collect your materials. I'll need:\n\n1. Your CV (PDF or Word format)\n2. Vocal reel (YouTube/Vimeo link)\n3. Acting reel (YouTube/Vimeo link)\n4. Movement reel (Optional - YouTube/Vimeo link)\n\nLet's start with your CV. Do you have it ready in PDF or Word format?"]
    current_stage := "collect_requirements" }

/-- Embeds `research_questions` (lines 799-817): unconditionally generates and
appends the research-questions prompt; the stage is left unchanged. -/
def research_questions (gen : String) (s : AgentState) : AgentState :=
  { s with messages := s.messages ++ [Msg.ai gen] }

/-- Summary builder of `final_questions`; `Option.getD` matches Python `dict.get(key, default)`: a present falsy
value (empty string) is returned, not the default. -/
def finalSummary (s : AgentState) : String :=
  "Perfect! I've collected all the information for your TDH Agency application.\n\nHere's a summary of what we have:\n\n**Personal Information:**\n- Name: "
    ++ s.applicant_info.name.getD "Not provided"
    ++ "\n- Email: " ++ s.applicant_info.email.getD "Not provided"
    ++ "\n- Phone: " ++ s.applicant_info.phone.getD "Not provided"
    ++ "\n- Role Type: " ++ (match s.role_type with | some r => r | none => "None")
    ++ "\n\n**Materials Collected:**\n"
    ++ String.join ((s.requirements_collected.filter (fun rc => rc.2)).map
        (fun rc => "- " ++ pyTitle (underscoresToSpaces rc.1) ++ ": ✓\n"))
    ++ "\nYour application is ready! You can now submit it to info@tdhagency.com with all the materials we've collected.\n\nThank you for using the TDH Agency Application Assistant!"

/-- Embeds `final_questions` (lines 819-855): stores the research answers, appends
the final summary and sets `ready_for_submission` — the only place the flag
is set to `True`. -/
def final_questions (s : AgentState) : AgentState :=
  match s.messages.getLast? with
  | some (Msg.human content) =>
    let s1 := { s with
      applicant_info := { s.applicant_info with research_answers := some content } }
    { s1 with
      messages := s1.messages ++ [Msg.ai (finalSummary s1)]
      ready_for_submission := true }
  | _ => s

/-! ## Router and turn driver -/

/-- Embeds `route_after_role_classification` (lines 116-127). -/
def route_after_role_classification (s : AgentState) : String :=
  match s.role_type with
  | some "Dancer" => "dancer_requirements"
  | some "Dancer Who Sings" => "dancer_who_sings_requirements"
  | some "Singer/Actor" => "singer_actor_requirements"
  | _ => "request_role_clarification"

/-- Embeds `determine_next_node` (lines 964-1006): the stage-to-logic mapping of
the custom turn driver; any stage outside the mapping resolves to the
terminal marker `"END"`. -/
def determine_next_node (s : AgentState) : String :=
  let current_stage := s.current_stage
  if current_stage = "basic_info" then "collect_basic_info"
  else if current_stage = "role_classification" then "classify_role"
  else if current_stage = "explain_requirements" then
    match s.role_type with
    | some "Dancer" => "dancer_requirements"
    | some "Dancer Who Sings" => "dancer_who_sings_requirements"
    | some "Singer/Actor" => "singer_actor_requirements"
    | _ => "request_role_clarification"
  else if current_stage = "spotlight_check" then "spotlight_check"
  else if current_stage = "collect_spotlight" then "collect_spotlight_link"
  else if current_stage = "representation_check" then "representation_check"
  else if current_stage = "collect_representation" then "collect_representation_details"
  else if current_stage = "work_preferences" then "work_preferences"
  else if current_stage = "materials_collection" then
    if s.role_type = some "Dancer" || s.role_type = some "Dancer Who Sings" then
      "dancer_materials"
    else "singer_actor_materials"
  else if current_stage = "collect_requirements" then "collect_requirements"
  else if current_stage = "research_questions" then "research_questions"
  else if current_stage = "final_questions" then "final_questions"
  else "END"

/-- Embeds `execute_node` (lines 1008-1034): dispatch by node name; an unknown name
returns the state unchanged (`continue_materials_collection` is also the
identity). -/
def execute_node (gen : String) (node_name : String) (s : AgentState) : AgentState :=
  if node_name = "collect_basic_info" then collect_basic_info gen s
  else if node_name = "classify_role" then classify_role gen s
  else if node_name = "request_role_clarification" then request_role_clarification gen s
  else if node_name = "dancer_requirements" then dancer_requirements s
  else if node_name = "dancer_who_sings_requirements" then dancer_who_sings_requirements s
  else if node_name = "singer_actor_requirements" then singer_actor_requirements s
  else if node_name = "spotlight_check" then spotlight_check s
  else if node_name = "collect_spotlight_link" then collect_spotlight_link s
  else if node_name = "representation_check" then representation_check s
  else if node_name = "collect_representation_details" then collect_representation_details s
  else if node_name = "work_preferences" then work_preferences gen s
  else if node_name = "dancer_materials" then dancer_materials s
  else if node_name = "singer_actor_materials" then singer_actor_materials s
  else if node_name = "collect_requirements" then collect_requirements s
  else if node_name = "research_questions" then research_questions gen s
  else if node_name = "final_questions" then final_questions s
  else s

/-- The `while iterations < max_iterations` loop of `continue_conversation`
(lines 1048-1069), recursing on the remaining iteration budget.  Returns the
final state together with the number of `execute_node` calls performed.
`gen n` is the LLM reply available to the pass with remaining budget `n+1`
(at most one LLM call per pass). -/
def convLoop (gen : Nat → String) : Nat → AgentState → AgentState × Nat
  | 0, s => (s, 0)
  | n + 1, s =>
    let original_stage := s.current_stage
    let next_node := determine_next_node s
    if next_node = "END" then ({ s with current_stage := "END" }, 0)
    else
      let s1 := execute_node (gen n) next_node s
      if s1.current_stage = original_stage then (s1, 1)
      else
        let r := convLoop gen n s1
        (r.1, r.2 + 1)

/-- Embeds `continue_conversation(user_input, thread_id)` (lines 1036-1074), for an
existing thread: append the user message, then run the bounded loop with
`max_iterations = 3`. -/
def continue_conversation (gen : Nat → String) (user_input : String)
    (s : AgentState) : AgentState × Nat :=
  convLoop gen 3 { s with messages := s.messages ++ [Msg.human user_input] }

/-! ## Persistence (`persistence.py`) -/

/-- Embeds `_serialize_messages` (lines 15-26): role tags `"human"`, `"ai"`, and
`"unknown"` for any other message type. -/
def serialize_messages (messages : List Msg) : List (String × String) :=
  messages.map (fun m =>
    match m with
    | Msg.human c => ("human", c)
    | Msg.ai c => ("ai", c)
    | Msg.other c => ("unknown", c))

/-- Embeds `_deserialize_messages` (lines 28-37): unknown tags are skipped. -/
def deserialize_messages : List (String × String) → List Msg
  | [] => []
  | (t, c) :: rest =>
    if t = "human" then Msg.human c :: deserialize_messages rest
    else if t = "ai" then Msg.ai c :: deserialize_messages rest
    else deserialize_messages rest

/-- The flat record written by `save_state` (lines 39-64). -/
structure SavedState where
  applicant_info : ApplicantInfo
  role_type : Option String
  current_stage : String
  requirements_collected : List (String × Bool)
  materials_collected : List (String × String)
  ready_for_submission : Bool
  has_spotlight : Option Bool
  has_representation : Option Bool
  work_preferences : List (String × Bool)
  messages : List (String × String)
deriving DecidableEq, Repr

/-- Embeds `save_state`: the serializable record of the session. -/
def save_state (s : AgentState) : SavedState :=
  { applicant_info := s.applicant_info
    role_type := s.role_type
    current_stage := s.current_stage
    requirements_collected := s.requirements_collected
    materials_collected := s.materials_collected
    ready_for_submission := s.ready_for_submission
    has_spotlight := s.has_spotlight
    has_representation := s.has_representation
    work_preferences := s.work_preferences
    messages := serialize_messages s.messages }

/-- Embeds `load_state` (lines 66-86) on a record written by `save_state`: the
stored fields with the messages deserialized. -/
def load_state (d : SavedState) : AgentState :=
  { messages := deserialize_messages d.messages
    applicant_info := d.applicant_info
    role_type := d.role_type
    current_stage := d.current_stage
    requirements_collected := d.requirements_collected
    ready_for_submission := d.ready_for_submission
    has_spotlight := d.has_spotlight
    has_representation := d.has_representation
    work_preferences := d.work_preferences
    materials_collected := d.materials_collected }

/-! ## Claim-side predicates

Acceptance conditions transcribed from the specification's wording, for
comparison against the embedded source functions. -/

/-- Spec §4.4 acceptance condition for a `*_reel` key: the text contains a
YouTube-style reference (a `youtube.com` or `youtu.be` reference) or a
Vimeo-style reference (a `vimeo.com` reference), case-insensitively. -/
def reelClaimAccepts (content : String) : Bool :=
  strContains (strLower content) "youtube.com" ||
  strContains (strLower content) "youtu.be" ||
  strContains (strLower content) "vimeo.com"

/-- Spec §4.4 acceptance condition for the `cv` key: the lowercased text
contains one of the format tokens `pdf, doc, docx, word` or one of the
attachment cues `attachment, attached, file, document, resume, cv`. -/
def cvClaimAccepts (content : String) : Bool :=
  ["pdf", "doc", "docx", "word",
   "attachment", "attached", "file", "document", "resume", "cv"].any
    (fun tok => strContains (strLower content) tok)

/-! ## Helper lemmas -/

theorem bool_eq_of_imp {a b : Bool} (h1 : a = true → b = true)
    (h2 : b = true → a = true) : a = b := by
  cases a <;> cases b <;> simp_all

theorem listStartsWith_trans {p q l : List Char}
    (hpq : listStartsWith p q = true) (hql : listStartsWith q l = true) :
    listStartsWith p l = true := by
  induction p generalizing q l with
  | nil => simp [listStartsWith]
  | cons a ps ih =>
    cases q with
    | nil => simp [listStartsWith] at hpq
    | cons b qs =>
      cases l with
      | nil => simp [listStartsWith] at hql
      | cons c ls =>
        simp only [listStartsWith, Bool.and_eq_true] at hpq hql ⊢
        have hab := of_decide_eq_true hpq.1
        have hbc := of_decide_eq_true hql.1
        exact ⟨decide_eq_true (hab.trans hbc), ih hpq.2 hql.2⟩

theorem containsSub_of_startsWith {p l : List Char}
    (h : listStartsWith p l = true) : containsSub l p = true := by
  cases l <;> simp [containsSub, h]

theorem containsSub_mono {p q l : List Char} (hpq : listStartsWith p q = true)
    (h : containsSub l q = true) : containsSub l p = true := by
  induction l with
  | nil =>
    simp only [containsSub, Bool.or_false] at h ⊢
    exact listStartsWith_trans hpq h
  | cons c t ih =>
    simp only [containsSub, Bool.or_eq_true] at h ⊢
    rcases h with h | h
    · exact Or.inl (listStartsWith_trans hpq h)
    · exact Or.inr (ih h)

theorem containsSub_tailPat {c : Char} {p l : List Char}
    (h : containsSub l (c :: p) = true) : containsSub l p = true := by
  induction l with
  | nil => simp [containsSub, listStartsWith] at h
  | cons x t ih =>
    simp only [containsSub, Bool.or_eq_true] at h ⊢
    rcases h with h | h
    · simp only [listStartsWith, Bool.and_eq_true] at h
      exact Or.inr (containsSub_of_startsWith h.2)
    · exact Or.inr (ih h)

theorem searchVimeoNum_contains {l : List Char}
    (h : searchVimeoNum l = true) : containsSub l "vimeo.com".data = true := by
  induction l with
  | nil => simp [searchVimeoNum, vimeoNumAt, listStartsWith] at h
  | cons c t ih =>
    simp only [searchVimeoNum, Bool.or_eq_true] at h
    rcases h with h | h
    · simp only [vimeoNumAt, Bool.and_eq_true] at h
      have hpre : listStartsWith "vimeo.com".data "vimeo.com/".data = true := by decide
      have := listStartsWith_trans hpre h.1
      exact containsSub_of_startsWith this
    · simp only [containsSub, Bool.or_eq_true]
      exact Or.inr (ih h)

theorem listStartsWith_append {p a b : List Char}
    (h : listStartsWith p a = true) : listStartsWith p (a ++ b) = true := by
  induction p generalizing a with
  | nil => simp [listStartsWith]
  | cons x ps ih =>
    cases a with
    | nil => simp [listStartsWith] at h
    | cons c t =>
      simp only [List.cons_append, listStartsWith, Bool.and_eq_true] at h ⊢
      exact ⟨h.1, ih h.2⟩

theorem containsSub_append_right {a b p : List Char}
    (h : containsSub a p = true) : containsSub (a ++ b) p = true := by
  induction a with
  | nil =>
    simp only [containsSub, Bool.or_false] at h
    cases p with
    | nil => exact containsSub_of_startsWith (by simp [listStartsWith])
    | cons x t => simp [listStartsWith] at h
  | cons c t ih =>
    simp only [containsSub, Bool.or_eq_true] at h
    simp only [List.cons_append, containsSub, Bool.or_eq_true]
    rcases h with h | h
    · exact Or.inl (listStartsWith_append h)
    · exact Or.inr (ih h)

theorem containsSub_append_left {a b p : List Char}
    (h : containsSub b p = true) : containsSub (a ++ b) p = true := by
  induction a with
  | nil => simpa using h
  | cons c t ih =>
    simp only [List.cons_append, containsSub, Bool.or_eq_true]
    exact Or.inr ih

theorem deserialize_serialize (messages : List Msg) :
    deserialize_messages (serialize_messages messages) =
      messages.filter (fun m => isHumanMsg m || isAiMsg m) := by
  induction messages with
  | nil => rfl
  | cons m t ih =>
    cases m <;>
      simp [serialize_messages, deserialize_messages, isHumanMsg, isAiMsg,
        List.filter, ih] <;>
      simpa [serialize_messages] using ih

theorem convLoop_count_le (gen : Nat → String) :
    ∀ n s, (convLoop gen n s).2 ≤ n := by
  intro n
  induction n with
  | zero => intro s; simp [convLoop]
  | succ n ih =>
    intro s
    simp only [convLoop]
    split_ifs with h1 h2
    · simp
    · simp
    · simpa using Nat.succ_le_succ (ih _)

/-! ## Claim theorems -/

/-- C8: for every session state, loading after saving preserves
`applicant_info`, `role_type`, `current_stage`, `requirements_collected`,
`materials_collected`, `ready_for_submission`, `has_spotlight`,
`has_representation` and `work_preferences`, and restricts the message
sequence, in order, to the user and assistant messages; messages of any
other role are absent after the round trip. -/
theorem C8_saveload_roundtrip (s : AgentState) :
    load_state (save_state s) =
      { s with messages := s.messages.filter (fun m => isHumanMsg m || isAiMsg m) } := by
  simp only [load_state, save_state, deserialize_serialize]

/-- A session sitting in the `work_preferences` stage with no new user
input pending, used to evaluate the idempotence requirement. -/
def c2State : AgentState :=
  { messages := [Msg.human "hi"]
    applicant_info := {}
    role_type := some "Dancer"
    current_stage := "work_preferences"
    requirements_collected := []
    ready_for_submission := false
    has_spotlight := some false
    has_representation := some false
    work_preferences := []
    materials_collected := [] }

/-- C2 (code evaluation): the stage logic functions `work_preferences`,
`research_questions` and `request_role_clarification` are not no-ops on a
second consecutive invocation: each invocation appends a fresh assistant
utterance, so two invocations with no new user message grow the history by
two and the second invocation changes the state again. -/
theorem C2_double_invocation_appends :
    ((work_preferences "W" (work_preferences "W" c2State)).messages.length
        = c2State.messages.length + 2)
    ∧ ((research_questions "R" (research_questions "R" c2State)).messages.length
        = c2State.messages.length + 2)
    ∧ ((request_role_clarification "Q" (request_role_clarification "Q" c2State)).messages.length
        = c2State.messages.length + 2)
    ∧ work_preferences "W" (work_preferences "W" c2State) ≠ work_preferences "W" c2State
    ∧ (work_preferences "W" (work_preferences "W" c2State)).current_stage
        = (work_preferences "W" c2State).current_stage := by
  decide

/-- C3: the turn driver's loop performs at most 3 `execute_node` calls per
inbound message, and it stops early: when the stage resolves to the terminal
`"END"` marker it stops with no execution, and when an execution leaves the
stage unchanged it stops right after that execution. -/
theorem C3_turn_driver_bound :
    (∀ (gen : Nat → String) (user_input : String) (s : AgentState),
      (continue_conversation gen user_input s).2 ≤ 3)
    ∧ (∀ (gen : Nat → String) (n : Nat) (s : AgentState),
        determine_next_node s = "END" →
        convLoop gen (n + 1) s = ({ s with current_stage := "END" }, 0))
    ∧ (∀ (gen : Nat → String) (n : Nat) (s : AgentState),
        determine_next_node s ≠ "END" →
        (execute_node (gen n) (determine_next_node s) s).current_stage = s.current_stage →
        convLoop gen (n + 1) s = (execute_node (gen n) (determine_next_node s) s, 1)) := by
  refine ⟨?_, ?_, ?_⟩
  · intro gen user_input s
    exact convLoop_count_le gen 3 _
  · intro gen n s h
    simp [convLoop, h]
  · intro gen n s hne hsame
    simp [convLoop, hne, hsame]

/-- A session whose stage is outside the driver's mapping (resolves to the
`"END"` marker). -/
def c3EndState : AgentState :=
  { messages := [Msg.human "hello"]
    applicant_info := {}
    role_type := none
    current_stage := "END"
    requirements_collected := []
    ready_for_submission := false
    has_spotlight := none
    has_representation := none
    work_preferences := []
    materials_collected := [] }

/-- A session in `research_questions`, whose logic leaves the stage
unchanged. -/
def c3StayState : AgentState :=
  { messages := [Msg.human "question answered"]
    applicant_info := {}
    role_type := some "Dancer"
    current_stage := "research_questions"
    requirements_collected :=
      [("cv", true), ("dance_reel", true), ("vocal_reel", true), ("acting_reel", true)]
    ready_for_submission := false
    has_spotlight := some false
    has_representation := some false
    work_preferences := []
    materials_collected := [] }

/-- Witness for C3 at concrete sessions: the bound at an arbitrary input,
the early stop at a terminal-resolving stage, and the early stop after one
stage-preserving execution. -/
theorem C3_turn_driver_bound_witness :
    ((continue_conversation (fun _ => "G") "hi" c3StayState).2 ≤ 3)
    ∧ convLoop (fun _ => "G") 3 c3EndState = ({ c3EndState with current_stage := "END" }, 0)
    ∧ convLoop (fun _ => "G") 3 c3StayState
        = (execute_node "G" (determine_next_node c3StayState) c3StayState, 1) :=
  ⟨C3_turn_driver_bound.1 (fun _ => "G") "hi" c3StayState,
   C3_turn_driver_bound.2.1 (fun _ => "G") 2 c3EndState (by decide),
   C3_turn_driver_bound.2.2 (fun _ => "G") 2 c3StayState (by decide) (by decide)⟩

/-- C5: for every reel-kind requirement key and every input text, the
validator `MaterialValidator.validate_video_link` accepts exactly when the
text contains a YouTube-style or Vimeo-style reference (the spec-side
condition `reelClaimAccepts`); on failure the feedback mentions both
YouTube and Vimeo; and `validate("acting_reel", tiktok link)` is rejected
with feedback naming both platforms, under the standalone validator as well
as under the in-flow `validate_material`. -/
theorem C5_reel_validation :
    (∀ key ∈ (["dance_reel", "vocal_reel", "acting_reel", "movement_reel"] : List String),
      ∀ content : String,
        ((MaterialValidator.validate_video_link content key).1 = reelClaimAccepts content)
        ∧ ((MaterialValidator.validate_video_link content key).1 = false →
            strContains (MaterialValidator.validate_video_link content key).2 "YouTube" = true
            ∧ strContains (MaterialValidator.validate_video_link content key).2 "Vimeo" = true))
    ∧ MaterialValidator.validate_video_link "https://tiktok.com/@user/video/123" "acting_reel"
        = (false, "Please provide a direct YouTube or Vimeo link for your acting_reel")
    ∧ validate_material "acting_reel" "https://tiktok.com/@user/video/123"
        = (false, "Please provide a direct YouTube or Vimeo link for your Acting Reel. Other platforms or downloadable files are not accepted.") := by
  refine ⟨?_, by decide, by decide⟩
  intro key _hkey content
  constructor
  · simp only [MaterialValidator.validate_video_link, reelClaimAccepts]
    split_ifs with hA hB hC
    · simp only [Bool.or_eq_true] at hA
      have : strContains (strLower content) "youtube.com" = true ∨
          strContains (strLower content) "youtu.be" = true := by
        rcases hA with ((((h | h) | h) | h) | h)
        · exact Or.inl (containsSub_mono (by decide) h)
        · exact Or.inr (containsSub_mono (by decide) h)
        · exact Or.inl (containsSub_mono (by decide) h)
        · exact Or.inl h
        · exact Or.inr h
      rcases this with h | h <;> simp [h]
    · simp only [Bool.or_eq_true] at hB
      have : strContains (strLower content) "vimeo.com" = true := by
        rcases hB with h | h
        · exact searchVimeoNum_contains h
        · exact h
      simp [this]
    · have hyt : strContains (strLower content) "youtube.com" = false := by
        cases h : strContains (strLower content) "youtube.com"
        · rfl
        · exact absurd (by simp [h]) hA
      have hybe : strContains (strLower content) "youtu.be" = false := by
        cases h : strContains (strLower content) "youtu.be"
        · rfl
        · exact absurd (by simp [h]) hA
      have hvim : strContains (strLower content) "vimeo.com" = false := by
        cases h : strContains (strLower content) "vimeo.com"
        · rfl
        · exact absurd (by simp [h]) hB
      simp [hyt, hybe, hvim]
    · have hyt : strContains (strLower content) "youtube.com" = false := by
        cases h : strContains (strLower content) "youtube.com"
        · rfl
        · exact absurd (by simp [h]) hA
      have hybe : strContains (strLower content) "youtu.be" = false := by
        cases h : strContains (strLower content) "youtu.be"
        · rfl
        · exact absurd (by simp [h]) hA
      have hvim : strContains (strLower content) "vimeo.com" = false := by
        cases h : strContains (strLower content) "vimeo.com"
        · rfl
        · exact absurd (by simp [h]) hB
      simp [hyt, hybe, hvim]
  · intro hfail
    simp only [MaterialValidator.validate_video_link] at hfail ⊢
    split_ifs at hfail ⊢ with hA hB hC
    · constructor
      · show containsSub (("Please provide a direct YouTube or Vimeo link for your " ++ key).data)
          "YouTube".data = true
        rw [String.data_append]
        exact containsSub_append_right (by decide)
      · show containsSub (("Please provide a direct YouTube or Vimeo link for your " ++ key).data)
          "Vimeo".data = true
        rw [String.data_append]
        exact containsSub_append_right (by decide)
    · constructor
      · show containsSub ((key ++ " must be a YouTube or Vimeo link").data) "YouTube".data = true
        rw [String.data_append]
        exact containsSub_append_left (by decide)
      · show containsSub ((key ++ " must be a YouTube or Vimeo link").data) "Vimeo".data = true
        rw [String.data_append]
        exact containsSub_append_left (by decide)

/-- Witness for C5 at the concrete scenario input: the acceptance
characterization and the dual-platform failure feedback at
`("acting_reel", tiktok link)`. -/
theorem C5_reel_validation_witness :
    ((MaterialValidator.validate_video_link "https://tiktok.com/@user/video/123" "acting_reel").1
      = reelClaimAccepts "https://tiktok.com/@user/video/123")
    ∧ strContains
        (MaterialValidator.validate_video_link "https://tiktok.com/@user/video/123" "acting_reel").2
        "YouTube" = true
    ∧ strContains
        (MaterialValidator.validate_video_link "https://tiktok.com/@user/video/123" "acting_reel").2
        "Vimeo" = true :=
  have h := C5_reel_validation.1 "acting_reel" (by decide) "https://tiktok.com/@user/video/123"
  ⟨h.1, (h.2 (by decide)).1, (h.2 (by decide)).2⟩

/-- C6 (counterexample): no single validator satisfies the claim.  The
standalone `MaterialValidator.validate_cv` accepts `"my_cv.txt"` (the
attachment cue `cv` occurs in it), contradicting the claimed rejection,
while the in-flow `validate_material` rejects `"I have attached my resume"`
even though the claimed token condition holds for it. -/
theorem C6_counterexample :
    (MaterialValidator.validate_cv "my_cv.txt").1 = true
    ∧ cvClaimAccepts "my_cv.txt" = true
    ∧ (validate_material "cv" "I have attached my resume").1 = false
    ∧ cvClaimAccepts "I have attached my resume" = true := by
  decide

/-- The acceptance condition of `MaterialValidator.validate_cv` as written
in the source: a document-format token or an attachment keyword occurs in
the lowercased content. -/
theorem validate_cv_fst (content : String) :
    (MaterialValidator.validate_cv content).1 =
      (["pdf", "doc", "docx", "word", ".pdf", ".doc", ".docx"].any
          (fun format_type => strContains (strLower content) format_type)
       || ["attachment", "attached", "file", "document", "resume", "cv"].any
          (fun keyword => strContains (strLower content) keyword)) := by
  simp only [MaterialValidator.validate_cv]
  split_ifs with hF hK <;> simp_all

/-- C6 (amended): `MaterialValidator.validate_cv` accepts exactly when the
claimed token condition `cvClaimAccepts` holds — so `"my_cv.pdf"` *and*
`"my_cv.txt"` are both accepted by it — while the in-flow
`validate_material` checks only `pdf`, `word`, `.doc`, `.docx` and is the
validator that accepts `"my_cv.pdf"` but rejects `"my_cv.txt"`. -/
theorem C6_cv_validation :
    (∀ content : String,
      (MaterialValidator.validate_cv content).1 = cvClaimAccepts content)
    ∧ (∀ content : String,
      (validate_material "cv" content).1 =
        (["pdf", "word", ".doc", ".docx"].any
          (fun ext => strContains (strLower content) ext)))
    ∧ (MaterialValidator.validate_cv "my_cv.pdf").1 = true
    ∧ (MaterialValidator.validate_cv "my_cv.txt").1 = true
    ∧ validate_material "cv" "my_cv.pdf"
        = (true, "Great! Your CV in PDF/Word format is noted.")
    ∧ validate_material "cv" "my_cv.txt"
        = (false, "Please note that your CV must be in PDF or Word format only. Do you have your CV in one of these formats?") := by
  refine ⟨?_, ?_, by decide, by decide, by decide, by decide⟩
  · intro content
    rw [validate_cv_fst]
    apply bool_eq_of_imp
    · intro h
      simp only [List.any_cons, List.any_nil, Bool.or_false, Bool.or_eq_true] at h
      simp only [cvClaimAccepts, List.any_cons, List.any_nil, Bool.or_false]
      rcases h with (h | h | h | h | h | h | h) | (h | h | h | h | h | h)
      · simp [h]
      · simp [h]
      · simp [h]
      · simp [h]
      · have h5 : containsSub (strLower content).data ('.' :: "pdf".data) = true := h
        simp [show strContains (strLower content) "pdf" = true from containsSub_tailPat h5]
      · have h5 : containsSub (strLower content).data ('.' :: "doc".data) = true := h
        simp [show strContains (strLower content) "doc" = true from containsSub_tailPat h5]
      · have h5 : containsSub (strLower content).data ('.' :: "docx".data) = true := h
        simp [show strContains (strLower content) "docx" = true from containsSub_tailPat h5]
      · simp [h]
      · simp [h]
      · simp [h]
      · simp [h]
      · simp [h]
      · simp [h]
    · intro h
      simp only [cvClaimAccepts, List.any_cons, List.any_nil, Bool.or_false,
        Bool.or_eq_true] at h
      simp only [List.any_cons, List.any_nil, Bool.or_false]
      rcases h with h | h | h | h | h | h | h | h | h | h <;> simp [h]
  · intro content
    simp only [validate_material]
    split_ifs with h <;> simp_all

/-- C7: when the `collect_requirements` logic processes a user message that
fails validation for the current requirement (the first uncollected key),
the resulting state is the input state with exactly one assistant utterance
appended — the validator's feedback verbatim — so the checklist, the stored
materials and the stage are all unchanged. -/
theorem C7_rejection_no_change :
    ∀ (s : AgentState) (req content : String),
      s.messages.getLast? = some (Msg.human content) →
      firstUncollected s.requirements_collected = some req →
      (validate_material req content).1 = false →
      collect_requirements s =
        { s with messages := s.messages ++ [Msg.ai (validate_material req content).2] } := by
  intro s req content hlast hfirst hval
  simp only [collect_requirements, hlast, hfirst, hval]
  simp [hval]

/-- A fresh Dancer session in `collect_requirements` whose latest user
message fails CV validation. -/
def c7State : AgentState :=
  { messages := [Msg.human "hello there"]
    applicant_info := {}
    role_type := some "Dancer"
    current_stage := "collect_requirements"
    requirements_collected :=
      [("cv", false), ("dance_reel", false), ("vocal_reel", false), ("acting_reel", false)]
    ready_for_submission := false
    has_spotlight := some false
    has_representation := some false
    work_preferences := []
    materials_collected := [] }

/-- Witness for C7: the rejected CV submission `"hello there"` leaves the
session unchanged except for the appended feedback utterance. -/
theorem C7_rejection_no_change_witness :
    collect_requirements c7State =
      { c7State with
        messages := c7State.messages ++ [Msg.ai (validate_material "cv" "hello there").2] } :=
  C7_rejection_no_change c7State "cv" "hello there" rfl rfl (by decide)

/-- C4 (amended): in the `basic_info` stage, processing a user message
advances the stage to `role_classification` exactly when name, email and
phone are all present (truthy) after extraction *and* the message mentions
a role keyword (`rolePhrases`); otherwise the stage stays `basic_info`. -/
theorem C4_basic_info_transition :
    ∀ (gen : String) (s : AgentState) (content : String),
      s.messages.getLast? = some (Msg.human content) →
      s.current_stage = "basic_info" →
      (((collect_basic_info gen s).current_stage = "role_classification") ↔
        (truthy (extract_applicant_info content s.applicant_info).name &&
         truthy (extract_applicant_info content s.applicant_info).email &&
         truthy (extract_applicant_info content s.applicant_info).phone &&
         rolePhrases.any (fun p => strContains (strLower content) p)) = true)
      ∧ ((truthy (extract_applicant_info content s.applicant_info).name &&
          truthy (extract_applicant_info content s.applicant_info).email &&
          truthy (extract_applicant_info content s.applicant_info).phone &&
          rolePhrases.any (fun p => strContains (strLower content) p)) = false →
         (collect_basic_info gen s).current_stage = "basic_info") := by
  intro gen s content hlast hstage
  simp only [collect_basic_info, hlast]
  split_ifs with hcond
  · constructor
    · simp [hcond]
    · intro hfalse
      rw [hcond] at hfalse
      cases hfalse
  · constructor
    · simp only [hstage]
      constructor
      · intro h
        exact absurd h (by decide)
      · intro h
        exact absurd h hcond
    · intro _
      simpa using hstage

/-- A session in `basic_info` whose applicant record is already complete but
whose latest message mentions no role keyword. -/
def c4State : AgentState :=
  { messages := [Msg.human "Thank you for the details"]
    applicant_info :=
      { name := some "Jane Smith"
        email := some "jane@example.com"
        phone := some "+44 7700 900123"
        spotlight := some "https://www.spotlight.com/1234"
        work_auth := none
        current_agency := none
        research_answers := none }
    role_type := none
    current_stage := "basic_info"
    requirements_collected := []
    ready_for_submission := false
    has_spotlight := none
    has_representation := none
    work_preferences := []
    materials_collected := [] }

/-- C4 (counterexample): name, email and phone are all present after
extraction, yet the stage does not advance to role classification, because
the message `"Thank you for the details"` mentions no role keyword. -/
theorem C4_counterexample :
    truthy (extract_applicant_info "Thank you for the details" c4State.applicant_info).name = true
    ∧ truthy (extract_applicant_info "Thank you for the details" c4State.applicant_info).email = true
    ∧ truthy (extract_applicant_info "Thank you for the details" c4State.applicant_info).phone = true
    ∧ (collect_basic_info "G" c4State).current_stage = "basic_info"
    ∧ (collect_basic_info "G" c4State).current_stage ≠ "role_classification" := by
  decide

/-- Like `c4State` but with a message that mentions a role keyword. -/
def c4wState : AgentState :=
  { c4State with messages := [Msg.human "I love to dance"] }

/-- Witness for C4 (amended): with complete basic info and the role keyword
`dance` in the message, the stage advances to `role_classification`. -/
theorem C4_basic_info_transition_witness :
    (collect_basic_info "G" c4wState).current_stage = "role_classification" :=
  (C4_basic_info_transition "G" c4wState "I love to dance" rfl rfl).1.mpr (by decide)

/-- A fresh session whose last human message is Scenario A's
classification text. -/
def c9State : AgentState :=
  { messages := [Msg.human "I'm a dancer who sings"]
    applicant_info := {}
    role_type := none
    current_stage := "role_classification"
    requirements_collected := []
    ready_for_submission := false
    has_spotlight := none
    has_representation := none
    work_preferences := []
    materials_collected := [] }

/-- C9: role classification checks `"dancer who sings"` first, then
`"dancer"`, then any of `"singer"/"actor"/"mover"`, first match winning; no
match leaves the role, stage and checklist unchanged and routes to
clarification; and the Scenario A text `"I'm a dancer who sings"` yields
role `Dancer Who Sings` with the four-key Dancer checklist in order. -/
theorem C9_role_classification :
    (∀ (gen : String) (s : AgentState) (content : String),
      (s.messages.filter isHumanMsg).getLast? = some (Msg.human content) →
      ((strContains (strLower content) "dancer who sings" = true →
          (classify_role gen s).role_type = some "Dancer Who Sings" ∧
          (classify_role gen s).current_stage = "explain_requirements" ∧
          (classify_role gen s).requirements_collected =
            [("cv", false), ("dance_reel", false), ("vocal_reel", false),
             ("acting_reel", false)])
        ∧ (strContains (strLower content) "dancer who sings" = false →
           strContains (strLower content) "dancer" = true →
           (classify_role gen s).role_type = some "Dancer" ∧
           (classify_role gen s).current_stage = "explain_requirements")
        ∧ (strContains (strLower content) "dancer who sings" = false →
           strContains (strLower content) "dancer" = false →
           (["singer", "actor", "mover"].any
             (fun term => strContains (strLower content) term)) = true →
           (classify_role gen s).role_type = some "Singer/Actor" ∧
           (classify_role gen s).current_stage = "explain_requirements")
        ∧ (strContains (strLower content) "dancer who sings" = false →
           strContains (strLower content) "dancer" = false →
           (["singer", "actor", "mover"].any
             (fun term => strContains (strLower content) term)) = false →
           (classify_role gen s).role_type = s.role_type ∧
           (classify_role gen s).current_stage = s.current_stage ∧
           (classify_role gen s).requirements_collected = s.requirements_collected ∧
           (s.role_type = none →
             route_after_role_classification (classify_role gen s)
               = "request_role_clarification"))))
    ∧ (classify_role "G" c9State).role_type = some "Dancer Who Sings"
    ∧ (classify_role "G" c9State).requirements_collected =
        [("cv", false), ("dance_reel", false), ("vocal_reel", false),
         ("acting_reel", false)] := by
  refine ⟨?_, by decide, by decide⟩
  intro gen s content hlast
  refine ⟨?_, ?_, ?_, ?_⟩
  · intro h1
    simp [classify_role, hlast, msgContent, h1]
  · intro h1 h2
    simp [classify_role, hlast, msgContent, h1, h2]
  · intro h1 h2 h3
    simp [classify_role, hlast, msgContent, h1, h2, h3]
  · intro h1 h2 h3
    refine ⟨?_, ?_, ?_, ?_⟩
    · simp [classify_role, hlast, msgContent, h1, h2, h3]
    · simp [classify_role, hlast, msgContent, h1, h2, h3]
    · simp [classify_role, hlast, msgContent, h1, h2, h3]
    · intro hrole
      simp [classify_role, route_after_role_classification, hlast, msgContent,
        h1, h2, h3, hrole]

def c9bState : AgentState :=
  { c9State with messages := [Msg.human "a dancer here"] }

def c9cState : AgentState :=
  { c9State with messages := [Msg.human "I am an actor"] }

def c9dState : AgentState :=
  { c9State with messages := [Msg.human "hello"] }

/-- Witness for C9: each priority branch exercised at a concrete
classification message, and the no-match branch routing to clarification. -/
theorem C9_role_classification_witness :
    ((classify_role "G" c9State).role_type = some "Dancer Who Sings"
      ∧ (classify_role "G" c9State).current_stage = "explain_requirements"
      ∧ (classify_role "G" c9State).requirements_collected =
          [("cv", false), ("dance_reel", false), ("vocal_reel", false),
           ("acting_reel", false)])
    ∧ ((classify_role "G" c9bState).role_type = some "Dancer"
      ∧ (classify_role "G" c9bState).current_stage = "explain_requirements")
    ∧ ((classify_role "G" c9cState).role_type = some "Singer/Actor"
      ∧ (classify_role "G" c9cState).current_stage = "explain_requirements")
    ∧ ((classify_role "G" c9dState).role_type = c9dState.role_type
      ∧ route_after_role_classification (classify_role "G" c9dState)
          = "request_role_clarification") := by
  refine ⟨?_, ?_, ?_, ?_⟩
  · exact (C9_role_classification.1 "G" c9State "I'm a dancer who sings" rfl).1 (by decide)
  · exact (C9_role_classification.1 "G" c9bState "a dancer here" rfl).2.1
      (by decide) (by decide)
  · exact (C9_role_classification.1 "G" c9cState "I am an actor" rfl).2.2.1
      (by decide) (by decide) (by decide)
  · have h := (C9_role_classification.1 "G" c9dState "hello" rfl).2.2.2
      (by decide) (by decide) (by decide)
    exact ⟨h.1, h.2.2.2 rfl⟩

/-- C10: any user message whose lowercased text contains `"yes"`,
`"i have"` or `"i do"` makes `spotlight_check` set `has_spotlight := true`
and `representation_check` set `has_representation := true` — the
affirmative phrase list is tested before the negative one, so this holds
even when a negative cue is also present. -/
theorem C10_affirmative_priority :
    ∀ (s : AgentState) (content : String),
      s.messages.getLast? = some (Msg.human content) →
      (strContains (strLower content) "yes" || strContains (strLower content) "i have" ||
       strContains (strLower content) "i do") = true →
      (spotlight_check s).has_spotlight = some true
      ∧ (representation_check s).has_representation = some true := by
  intro s content hlast haff
  have hc : (["yes", "i have", "i do", "i'm on spotlight"].any
      (fun phrase => strContains (strLower content) phrase)) = true := by
    simp only [Bool.or_eq_true] at haff
    rcases haff with (h | h) | h <;> simp [h]
  have hc2 : (["yes", "i have", "i do", "i'm represented"].any
      (fun phrase => strContains (strLower content) phrase)) = true := by
    simp only [Bool.or_eq_true] at haff
    rcases haff with (h | h) | h <;> simp [h]
  constructor
  · simp [spotlight_check, hlast, hc]
  · simp [representation_check, hlast, hc2]

/-- A session whose latest message contains the negative cues `"no"` and
`"i don't"` — and therefore also the affirmative substring `"i do"`. -/
def c10State : AgentState :=
  { messages := [Msg.human "no, I don't"]
    applicant_info := {}
    role_type := some "Dancer"
    current_stage := "spotlight_check"
    requirements_collected := []
    ready_for_submission := false
    has_spotlight := none
    has_representation := none
    work_preferences := []
    materials_collected := [] }

/-- Witness for C10: `"no, I don't"` contains the affirmative substring
`"i do"`, so both flags are set to `true` despite the negative cues. -/
theorem C10_affirmative_priority_witness :
    (spotlight_check c10State).has_spotlight = some true
    ∧ (representation_check c10State).has_representation = some true :=
  C10_affirmative_priority c10State "no, I don't" rfl (by decide)

/-- The Scenario D start state: a Dancer in `collect_requirements` with the
four-key checklist entirely uncollected. -/
def c1Start : AgentState :=
  { messages := [Msg.ai "Let us collect your materials."]
    applicant_info := {}
    role_type := some "Dancer"
    current_stage := "collect_requirements"
    requirements_collected :=
      [("cv", false), ("dance_reel", false), ("vocal_reel", false), ("acting_reel", false)]
    ready_for_submission := false
    has_spotlight := some false
    has_representation := some false
    work_preferences := []
    materials_collected := [] }

def c1gen : Nat → String := fun _ => "G"

def c1msg1 : String := "My CV is ready in pdf format"

def c1msg2 : String := "Here is my dance reel youtube.com/watch?v=abcdefghijk"

def c1msg3 : String := "vimeo.com/12345"

def c1msg4 : String := "youtu.be/abcdefghijk"

def c1s1 : AgentState := (continue_conversation c1gen c1msg1 c1Start).1

def c1s2 : AgentState := (continue_conversation c1gen c1msg2 c1s1).1

def c1s3 : AgentState := (continue_conversation c1gen c1msg3 c1s2).1

def c1s4 : AgentState := (continue_conversation c1gen c1msg4 c1s3).1

def c1s5 : AgentState := (continue_conversation c1gen "one more thing" c1s4).1

/-- C1 (counterexample): after the four valid submissions the stage has
moved to `research_questions`, but `ready_for_submission` is still `false`
— the claim's `ready_for_submission = true` does not hold at that point. -/
theorem C1_counterexample :
    c1s4.current_stage = "research_questions"
    ∧ c1s4.ready_for_submission = false := by
  decide

/-- C1 (amended): the four valid submissions set `collected := true` for
exactly the four keys in checklist order, one per turn, never skipping or
reordering, store the raw texts in order, and move the stage to
`research_questions`, while `ready_for_submission` stays `false` (it is set
only later, by `final_questions`); a fifth submission changes no
requirement flag, and running `collect_requirements` on the completed
checklist (the "already collected" branch) changes no flag either. -/
theorem C1_sequential_collection :
    c1s1.requirements_collected =
      [("cv", true), ("dance_reel", false), ("vocal_reel", false), ("acting_reel", false)]
    ∧ c1s1.current_stage = "collect_requirements"
    ∧ c1s2.requirements_collected =
      [("cv", true), ("dance_reel", true), ("vocal_reel", false), ("acting_reel", false)]
    ∧ c1s2.current_stage = "collect_requirements"
    ∧ c1s3.requirements_collected =
      [("cv", true), ("dance_reel", true), ("vocal_reel", true), ("acting_reel", false)]
    ∧ c1s3.current_stage = "collect_requirements"
    ∧ c1s4.requirements_collected =
      [("cv", true), ("dance_reel", true), ("vocal_reel", true), ("acting_reel", true)]
    ∧ c1s4.current_stage = "research_questions"
    ∧ c1s4.ready_for_submission = false
    ∧ c1s4.materials_collected =
      [("cv", c1msg1), ("dance_reel", c1msg2), ("vocal_reel", c1msg3), ("acting_reel", c1msg4)]
    ∧ c1s5.requirements_collected = c1s4.requirements_collected
    ∧ c1s5.current_stage = "research_questions"
    ∧ (collect_requirements
        { c1s4 with messages := c1s4.messages ++ [Msg.human "a fifth submission"] }
      ).requirements_collected = c1s4.requirements_collected := by
  decide
